import Mathlib

/-!
# Verification of the mobile-accessory-hub sale/purchase commit engine

Shallow embedding of the transactional commit engine of the
`mobile-accessory-hub` repository: the stored-procedure-calling glue in
`frontend/db.py`, the repository wrappers in
`frontend/repositories/{sale,purchase,inventory}_repository.py`, and the
pricing computation of `frontend/views/sale_pos_view.py`.

Conventions of the embedding:
* Money amounts are `Rat` (the Python code uses `float`/`Decimal`; the
  identities proved here are exact-arithmetic identities of the same
  expressions).
* The three logical tables (stock, orders, order details) are explicit
  lists inside `DBState`; a transaction is a pure function
  `DBState → DBState × result` that either applies all of its effects or
  none of them, mirroring pyodbc commit/rollback.
* Stored-procedure bodies (`usp_*`) live in the database, not under the
  repository's Python sources; each is modelled either from the spec or
  from its in-repo contract documentation, as stated in its doc comment.
-/

/-- A detail line as passed to `db.call_create_sale` /
`db.call_create_purchase`: the dict `{Product_Code, Quantity, Unit_Price}`. -/
structure DetailRow where
  productCode : String
  quantity : Int
  unitPrice : Rat
deriving DecidableEq

/-- A row of the SALE table (header): `SALE(Invoice_No, Customer_ID,
Employee_ID, …, Total_Amount, Discount, Net_Amount)`, dates elided. -/
structure SaleHeader where
  invoiceNo : String
  customerId : String
  employeeId : String
  totalAmount : Rat
  discount : Rat
  netAmount : Rat
deriving DecidableEq

/-- A row of the SALE_DETAIL table. -/
structure SaleDetailRow where
  invoiceNo : String
  productCode : String
  quantity : Int
  unitPrice : Rat
  lineTotal : Rat
deriving DecidableEq

/-- Lifecycle status of a purchase order (`Pending`/`Received`/`Cancelled`). -/
inductive PurchStatus where
  | pending
  | received
  | cancelled
deriving DecidableEq

/-- A row of the PURCHASE table (header), dates elided. -/
structure PurchaseHeader where
  purchaseNo : String
  supplierId : String
  status : PurchStatus
  totalAmount : Rat
deriving DecidableEq

/-- A row of the PURCHASE_DETAIL table. -/
structure PurchaseDetailRow where
  purchaseNo : String
  productCode : String
  quantity : Int
  unitPrice : Rat
deriving DecidableEq

/-- The transactional store: INVENTORY (product code ↦ current stock),
SALE, SALE_DETAIL, PURCHASE and PURCHASE_DETAIL. -/
structure DBState where
  stock : List (String × Int)
  sales : List SaleHeader
  saleDetails : List SaleDetailRow
  purchases : List PurchaseHeader
  purchaseDetails : List PurchaseDetailRow
deriving DecidableEq

/-- First INVENTORY row for a product code, if any. -/
def lookupStock : List (String × Int) → String → Option Int
  | [], _ => none
  | p :: rest, c => if p.1 = c then some p.2 else lookupStock rest c

/-- Current stock of a product; `0` when no INVENTORY row exists
(mirrors `InventoryRepository.get_stock_level`). -/
def getStock (st : DBState) (code : String) : Int :=
  (lookupStock st.stock code).getD 0

/-- Replace the first INVENTORY row for `code` (creating one if absent). -/
def setStock : List (String × Int) → String → Int → List (String × Int)
  | [], code, q => [(code, q)]
  | p :: rest, code, q =>
      if p.1 = code then (code, q) :: rest else p :: setStock rest code q

/-- Apply a stock delta for one product. -/
def adjustStockState (st : DBState) (code : String) (delta : Int) : DBState :=
  { st with stock := setStock st.stock code (getStock st code + delta) }

/-- Invariant: no product's current stock is negative. -/
def stockNonneg (st : DBState) : Prop :=
  ∀ code, 0 ≤ getStock st code

/-! ## Stored procedures of the commit engine

`usp_AdjustInventory`, `usp_CreateSale`, `usp_MarkPurchaseReceived` and
`usp_CancelPurchase` live in the database; their bodies are not part of the
Python sources. They are modelled from the spec (§4.2, §4.4, §4.5).
`usp_CreatePurchase` and `usp_CreatePurchaseOrder` are modelled from their
in-repo contract documentation (docstrings in `db.py` and
`purchase_repository.py`). Each model is a whole-transaction function:
on failure it returns the input state unchanged (full rollback). -/

/-- Modelled from the spec: body of `usp_AdjustInventory` is not under the
Python sources. §4.2: `adjust(product_code, delta, reason)` applies
`current_quantity += delta` and fails, applying no change at all, if the
result would be negative. -/
def usp_AdjustInventory (st : DBState) (code : String) (delta : Int) :
    DBState × Bool :=
  if getStock st code + delta < 0 then (st, false)
  else (adjustStockState st code delta, true)

/-- Total quantity requested for one product code over a detail list. -/
def requestedQty : List DetailRow → String → Int
  | [], _ => 0
  | d :: rest, code =>
      (if d.productCode = code then d.quantity else 0) + requestedQty rest code

/-- The distinct product codes of a detail list. -/
def distinctCodes (details : List DetailRow) : List String :=
  (details.map (fun d => d.productCode)).dedup

/-- §4.4 step 2: every distinct product of the cart has sufficient stock
for its aggregated requested quantity. -/
def stockSufficient (st : DBState) (details : List DetailRow) : Prop :=
  ∀ c ∈ distinctCodes details, requestedQty details c ≤ getStock st c

instance (st : DBState) (details : List DetailRow) :
    Decidable (stockSufficient st details) :=
  List.decidableBAll _ _

/-- Sum of `quantity * unit_price` over the detail rows. -/
def detailsTotal : List DetailRow → Rat
  | [] => 0
  | d :: rest => d.unitPrice * d.quantity + detailsTotal rest

/-- Decrement stock by the aggregated requested quantity of each distinct
product (the INVENTORY update of `usp_CreateSale`). -/
def decrementAll (st : DBState) (details : List DetailRow) : DBState :=
  (distinctCodes details).foldl
    (fun s c => adjustStockState s c (-(requestedQty details c))) st

/-- Whether a SALE header with this invoice number already exists. -/
def saleKeyTaken : List SaleHeader → String → Bool
  | [], _ => false
  | h :: rest, inv => if h.invoiceNo = inv then true else saleKeyTaken rest inv

/-- Outcome reported by a creating stored procedure through its
`@Success`/`@CreatedKey`/`@ErrorMessage` output parameters. -/
inductive SPOutcome where
  | ok (createdKey : String)
  | fail (msg : String)
deriving DecidableEq

/-- Modelled from the spec: body of `usp_CreateSale` is not under the
Python sources. §4.4 / `SaleRepository.create_sale` docstring: validates
sufficient stock for all items, creates the SALE header, creates all
SALE_DETAIL rows, decreases INVENTORY, all within one transaction; on any
failure the whole transaction rolls back. -/
def usp_CreateSale (st : DBState) (invoiceNo customerId employeeId : String)
    (discount : Rat) (details : List DetailRow) : DBState × SPOutcome :=
  if saleKeyTaken st.sales invoiceNo then
    (st, SPOutcome.fail "Duplicate invoice number")
  else if stockSufficient st details then
    let total := detailsTotal details
    let st' := decrementAll st details
    ({ st' with
        sales := st'.sales ++
          [⟨invoiceNo, customerId, employeeId, total, discount, total - discount⟩],
        saleDetails := st'.saleDetails ++ details.map
          (fun d => ⟨invoiceNo, d.productCode, d.quantity, d.unitPrice,
                     d.unitPrice * d.quantity⟩) },
     SPOutcome.ok invoiceNo)
  else (st, SPOutcome.fail "Insufficient stock")

/-- The `ProcedureResult` dataclass of `db.py`. -/
structure ProcedureResult where
  success : Bool
  createdKey : Option String
  errorMessage : Option String
deriving DecidableEq

/-- Embedding of `db.call_create_sale`: builds one SQL batch around
`usp_CreateSale` and executes it on a fresh connection. `raises` models a
`pyodbc.Error` from the store: the `except` branch rolls the connection
back (state unchanged) and returns a failure `ProcedureResult`. On a normal
run the batch result row is fetched and the connection committed; the
procedure itself has already rolled back internally when it reports
failure. -/
def call_create_sale (st : DBState)
    (invoiceNo customerId employeeId : String) (discount : Rat)
    (details : List DetailRow) (raises : Bool) : DBState × ProcedureResult :=
  if raises then (st, ⟨false, none, some "pyodbc.Error"⟩)
  else
    match usp_CreateSale st invoiceNo customerId employeeId discount details with
    | (st', SPOutcome.ok key) => (st', ⟨true, some key, none⟩)
    | (st', SPOutcome.fail msg) => (st', ⟨false, none, some msg⟩)

/-- First PURCHASE header with the given purchase number, if any. -/
def findPurchase : List PurchaseHeader → String → Option PurchaseHeader
  | [], _ => none
  | h :: rest, pno => if h.purchaseNo = pno then some h else findPurchase rest pno

/-- Set the status of the first PURCHASE header with the given number. -/
def setPurchStatus : List PurchaseHeader → String → PurchStatus →
    List PurchaseHeader
  | [], _, _ => []
  | h :: rest, pno, s =>
      if h.purchaseNo = pno then { h with status := s } :: rest
      else h :: setPurchStatus rest pno s

/-- Delete every PURCHASE header with the given number. -/
def removePurchase : List PurchaseHeader → String → List PurchaseHeader
  | [], _ => []
  | h :: rest, pno =>
      if h.purchaseNo = pno then removePurchase rest pno
      else h :: removePurchase rest pno

/-- Delete every PURCHASE_DETAIL row of the given purchase. -/
def removePurchaseDetails : List PurchaseDetailRow → String →
    List PurchaseDetailRow
  | [], _ => []
  | d :: rest, pno =>
      if d.purchaseNo = pno then removePurchaseDetails rest pno
      else d :: removePurchaseDetails rest pno

/-- The `(product_code, quantity)` pairs of a purchase's detail rows. -/
def purchaseLines : List PurchaseDetailRow → String → List (String × Int)
  | [], _ => []
  | d :: rest, pno =>
      if d.purchaseNo = pno then
        (d.productCode, d.quantity) :: purchaseLines rest pno
      else purchaseLines rest pno

/-- Apply `usp_AdjustInventory` for each line in order; `none` when any
line fails (the caller rolls back entirely, §4.5). -/
def adjustAllLines : DBState → List (String × Int) → Option DBState
  | st, [] => some st
  | st, l :: rest =>
      match usp_AdjustInventory st l.1 l.2 with
      | (st', true) => adjustAllLines st' rest
      | (_, false) => none

/-- Modelled from the spec: body of `usp_MarkPurchaseReceived` is not under
the Python sources. §4.5 `receive(order_key)`: under one transaction,
re-reads the header (must be `Pending`, else fail), for every detail line
calls `StockLedger.adjust(+quantity)`, sets status to `Received`; failure
partway rolls back entirely. -/
def usp_MarkPurchaseReceived (st : DBState) (pno : String) : DBState × Bool :=
  match findPurchase st.purchases pno with
  | none => (st, false)
  | some h =>
      if h.status = PurchStatus.pending then
        match adjustAllLines st (purchaseLines st.purchaseDetails pno) with
        | some st' =>
            ({ st' with
                purchases := setPurchStatus st'.purchases pno
                  PurchStatus.received }, true)
        | none => (st, false)
      else (st, false)

/-- Modelled from the spec: body of `usp_CancelPurchase` is not under the
Python sources. §4.5 `cancel(order_key)`: requires status `Pending`,
deletes detail rows and header, no stock effect; otherwise fails. -/
def usp_CancelPurchase (st : DBState) (pno : String) : DBState × Bool :=
  match findPurchase st.purchases pno with
  | none => (st, false)
  | some h =>
      if h.status = PurchStatus.pending then
        ({ st with
            purchases := removePurchase st.purchases pno,
            purchaseDetails := removePurchaseDetails st.purchaseDetails pno },
         true)
      else (st, false)

/-- Embedding of `PurchaseRepository.mark_as_received`: calls the stored
procedure through `db.call_procedure`; a store-level failure is caught
there (connection rolled back, `False` returned), so the wrapper maps the
Boolean to the `(success, message)` pair of the Python source. -/
def mark_as_received (st : DBState) (pno : String) : DBState × Bool × String :=
  match usp_MarkPurchaseReceived st pno with
  | (st', true) => (st', true, "Purchase marked as received. Inventory updated.")
  | (st', false) => (st', false, "Purchase not found or already received")

/-- Embedding of `PurchaseRepository.cancel_purchase` (same shape as
`mark_as_received`). -/
def cancel_purchase (st : DBState) (pno : String) : DBState × Bool × String :=
  match usp_CancelPurchase st pno with
  | (st', true) => (st', true, "Purchase order cancelled successfully.")
  | (st', false) => (st', false, "Purchase not found or cannot be cancelled")

/-- Embedding of `InventoryRepository.adjust_stock` (state effect): calls
`usp_AdjustInventory` with the given signed adjustment. -/
def adjust_stock (st : DBState) (code : String) (adjustment : Int) :
    DBState × Bool :=
  usp_AdjustInventory st code adjustment

/-- Embedding of `InventoryRepository.update_stock` (state effect): rejects
a negative target level before any store access, otherwise reads the
current level and adjusts by the difference. -/
def update_stock (st : DBState) (code : String) (newStock : Int) :
    DBState × Bool :=
  if newStock < 0 then (st, false)
  else usp_AdjustInventory st code (newStock - getStock st code)

/-- Modelled from the in-repo contract documentation: the body of
`usp_CreatePurchase` is not under the Python sources; per the docstrings of
`db.call_create_purchase` and `PurchaseRepository.create_purchase` it
"creates a purchase order with all its detail lines and updates inventory
(increases stock)", all within one transaction. -/
def usp_CreatePurchase (st : DBState) (purchaseNo supplierId : String)
    (details : List DetailRow) : DBState × SPOutcome :=
  if (findPurchase st.purchases purchaseNo).isSome then
    (st, SPOutcome.fail "Duplicate purchase number")
  else
    match adjustAllLines st (details.map (fun d => (d.productCode, d.quantity))) with
    | none => (st, SPOutcome.fail "Inventory adjustment failed")
    | some st' =>
        ({ st' with
            purchases := st'.purchases ++
              [⟨purchaseNo, supplierId, PurchStatus.pending,
                detailsTotal details⟩],
            purchaseDetails := st'.purchaseDetails ++ details.map
              (fun d => ⟨purchaseNo, d.productCode, d.quantity, d.unitPrice⟩) },
         SPOutcome.ok purchaseNo)

/-- Embedding of `db.call_create_purchase` (same wrapper shape as
`call_create_sale`; the `notes` argument is bound as a parameter and has no
state effect). -/
def call_create_purchase (st : DBState) (purchaseNo supplierId : String)
    (_notes : Option String) (details : List DetailRow) (raises : Bool) :
    DBState × ProcedureResult :=
  if raises then (st, ⟨false, none, some "pyodbc.Error"⟩)
  else
    match usp_CreatePurchase st purchaseNo supplierId details with
    | (st', SPOutcome.ok key) => (st', ⟨true, some key, none⟩)
    | (st', SPOutcome.fail msg) => (st', ⟨false, none, some msg⟩)

/-- Modelled from the in-repo contract documentation: the body of
`usp_CreatePurchaseOrder` is not under the Python sources; per the comments
in `PurchaseRepository.create_with_product` and `inventory_view.py` it
creates a `Pending` purchase (header plus a single detail line) and does
NOT update inventory — that happens when the purchase is marked received. -/
def usp_CreatePurchaseOrder (st : DBState)
    (purchaseNo supplierId productCode : String) (quantity : Int)
    (unitPrice : Rat) : DBState × Bool :=
  if (findPurchase st.purchases purchaseNo).isSome then (st, false)
  else
    ({ st with
        purchases := st.purchases ++
          [⟨purchaseNo, supplierId, PurchStatus.pending,
            unitPrice * quantity⟩],
        purchaseDetails := st.purchaseDetails ++
          [⟨purchaseNo, productCode, quantity, unitPrice⟩] }, true)

/-! ## Sequences of engine operations (for the global stock invariant) -/

/-- One engine-level mutation of the store: the operations the spec's §5
names as the only mutators of StockRecord rows, plus the purchase-creation
and lifecycle operations. -/
inductive Op where
  | createSale (invoiceNo customerId employeeId : String) (discount : Rat)
      (details : List DetailRow) (raises : Bool)
  | createPurchase (purchaseNo supplierId : String) (notes : Option String)
      (details : List DetailRow) (raises : Bool)
  | createPurchaseOrder (purchaseNo supplierId productCode : String)
      (quantity : Int) (unitPrice : Rat)
  | receivePurchase (purchaseNo : String)
  | cancelPurch (purchaseNo : String)
  | adjustInv (productCode : String) (delta : Int)
  | updateInv (productCode : String) (newStock : Int)

/-- State effect of one operation. -/
def applyOp (st : DBState) : Op → DBState
  | Op.createSale inv cust emp disc det r =>
      (call_create_sale st inv cust emp disc det r).1
  | Op.createPurchase pno sid n det r =>
      (call_create_purchase st pno sid n det r).1
  | Op.createPurchaseOrder pno sid code q p =>
      (usp_CreatePurchaseOrder st pno sid code q p).1
  | Op.receivePurchase pno => (mark_as_received st pno).1
  | Op.cancelPurch pno => (cancel_purchase st pno).1
  | Op.adjustInv code d => (adjust_stock st code d).1
  | Op.updateInv code n => (update_stock st code n).1

/-- State after a sequence of operations. -/
def runOps (st : DBState) (ops : List Op) : DBState := ops.foldl applyOp st

/-! ## Pricing (`sale_pos_view.py`) -/

/-- The `CartItem` dataclass of `sale_pos_view.py`. -/
structure CartItem where
  product_id : Int
  product_code : String
  product_name : String
  sku : String
  barcode : String
  unit_price : Rat
  quantity : Int
  available_stock : Int
deriving DecidableEq

/-- `CartItem.total_price`: `unit_price * quantity`. -/
def CartItem.total_price (i : CartItem) : Rat := i.unit_price * i.quantity

/-- `sum(item.total_price for item in cart_items)`. -/
def cartSubtotal (items : List CartItem) : Rat :=
  items.foldl (fun a i => a + i.total_price) 0

/-- The four pricing figures of the POS screen. -/
structure Totals where
  subtotal : Rat
  discount : Rat
  tax : Rat
  total : Rat
deriving DecidableEq

/-- Embedding of the pricing computation in `SalePOSView._update_totals`
(the preview shown to the operator): when an all-day percentage is active
and the per-sale discount is zero, the discount becomes
`subtotal * pct / 100`; `after_discount` is floored at zero; the tax rate
is `current_tax_rate / 100`. -/
def update_totals (cart : List CartItem) (current_discount : Rat)
    (allday_pct : Option Rat) (tax_rate_pct : Rat) : Totals :=
  let subtotal := cartSubtotal cart
  let discount :=
    match allday_pct with
    | some pct =>
        if current_discount = 0 then subtotal * pct / 100 else current_discount
    | none => current_discount
  let tax_rate := tax_rate_pct / 100
  let after_discount := subtotal - discount
  let after_discount := if after_discount < 0 then 0 else after_discount
  let tax := after_discount * tax_rate
  ⟨subtotal, discount, tax, after_discount + tax⟩

/-- Embedding of the pricing computation in `SalePOSView._checkout`:
`after_discount = max(0, subtotal - discount)`, `tax`, `total`. -/
def checkout_totals (cart : List CartItem) (discount : Rat)
    (tax_rate_pct : Rat) : Totals :=
  let subtotal := cartSubtotal cart
  let tax_rate := tax_rate_pct / 100
  let after_discount := max 0 (subtotal - discount)
  let tax := after_discount * tax_rate
  ⟨subtotal, discount, tax, after_discount + tax⟩

/-- The discount `_checkout` passes to `SaleRepository.create_sale`
(`sale_discount = discount`): the raw POS discount, unmodified. -/
def checkout_sale_discount (discount : Rat) : Rat := discount

/-- Stated from the spec's words, for the refinement comparison (§4.3):
the discount "clamped to `[0, subtotal]`". -/
def spec_clampedDiscount (subtotal d : Rat) : Rat := min (max d 0) subtotal

/-- Stated from the spec's words (§4.3): `tax = (subtotal - discount) *
tax_rate` with the clamped discount. -/
def spec_tax_amount (subtotal d tax_rate : Rat) : Rat :=
  (subtotal - spec_clampedDiscount subtotal d) * tax_rate

/-- Stated from the spec's words (§4.3): `net = subtotal - discount + tax`
with the clamped discount. -/
def spec_net (subtotal d tax_rate : Rat) : Rat :=
  subtotal - spec_clampedDiscount subtotal d + spec_tax_amount subtotal d tax_rate

/-! ## Identifier sequencer

`usp_GetNextInvoiceNo` / `usp_GetNextPurchaseNo` bodies are not under the
Python sources; modelled from the spec (§4.1): scan existing keys matching
the entity's three-letter marker followed by digits, take the maximum
numeric suffix, add one, and format back zero-padded to the fixed width
(3 digits); when no keys exist the suffix is the minimum value `001`. -/

/-- Numeric value of a decimal digit character. -/
def digitVal (c : Char) : Option Nat :=
  if c = '0' then some 0 else if c = '1' then some 1 else if c = '2' then some 2
  else if c = '3' then some 3 else if c = '4' then some 4
  else if c = '5' then some 5 else if c = '6' then some 6
  else if c = '7' then some 7 else if c = '8' then some 8
  else if c = '9' then some 9 else none

def digitsToNatAux : List Char → Nat → Option Nat
  | [], acc => some acc
  | c :: rest, acc =>
      match digitVal c with
      | some d => digitsToNatAux rest (acc * 10 + d)
      | none => none

/-- Parse a nonempty all-digit character list. -/
def digitsToNat : List Char → Option Nat
  | [] => none
  | l => digitsToNatAux l 0

/-- Strip an expected head (first argument) off a character list. -/
def stripHead : List Char → List Char → Option (List Char)
  | [], rest => some rest
  | _ :: _, [] => none
  | p :: ps, c :: cs => if c = p then stripHead ps cs else none

/-- The numeric suffix of a key under the given entity marker, if the key
has the form marker-then-digits. -/
def numericSuffix (pfx key : String) : Option Nat :=
  match stripHead pfx.data key.data with
  | some rest => digitsToNat rest
  | none => none

/-- Maximum numeric suffix among the existing keys (0 when none match). -/
def maxKeySuffix (pfx : String) (keys : List String) : Nat :=
  (keys.filterMap (numericSuffix pfx)).foldl max 0

/-- Zero-pad to the fixed 3-digit width of `INV###`/`PUR###` keys. -/
def pad3 (n : Nat) : String :=
  if n < 10 then "00" ++ toString n
  else if n < 100 then "0" ++ toString n
  else toString n

/-- Modelled from the spec: the next business key for an entity. -/
def sequencerNext (pfx : String) (keys : List String) : String :=
  pfx ++ pad3 (maxKeySuffix pfx keys + 1)

/-! ## SQL statement text built by `db.py`

`call_create_sale` and `call_create_purchase` assemble their batch text in
Python f-strings. The templates below reproduce that assembly (whitespace
collapsed; numeric rendering uses an exact decimal-free form where Python
prints `str(value)` — which values are formatted into the text, and that
different values yield different text, is preserved). -/

/-- Python's `str(x).replace("'", "''")` quote escaping. -/
def quoteChar : Char := Char.ofNat 39

def escListQuotes : List Char → List Char
  | [] => []
  | c :: rest =>
      if c = quoteChar then quoteChar :: quoteChar :: escListQuotes rest
      else c :: escListQuotes rest

def escapeQuotes (s : String) : String := ⟨escListQuotes s.data⟩

/-- Rendering of a numeric value into SQL text. -/
def ratLit (q : Rat) : String :=
  if q.den = 1 then toString q.num
  else toString q.num ++ "/" ++ toString q.den

/-- `'\n'.join(...)` over the generated detail INSERT statements. -/
def joinLines : List String → String
  | [] => ""
  | [s] => s
  | s :: rest => s ++ "\n" ++ joinLines rest

/-- One detail INSERT of `call_create_sale` (product code quote-escaped,
quantity and unit price formatted straight into the text). -/
def saleDetailInsert (d : DetailRow) : String :=
  "INSERT INTO @Details (Product_Code, Quantity, Unit_Price) VALUES ('"
    ++ escapeQuotes d.productCode ++ "', " ++ toString d.quantity ++ ", "
    ++ ratLit d.unitPrice ++ ");"

/-- One detail INSERT of `call_create_purchase` (no quote escaping). -/
def purchaseDetailInsert (d : DetailRow) : String :=
  "INSERT INTO @Details (Product_Code, Quantity, Unit_Price) VALUES ('"
    ++ d.productCode ++ "', " ++ toString d.quantity ++ ", "
    ++ ratLit d.unitPrice ++ ");"

/-- The statement text `call_create_sale` sends: every header value
(invoice, customer, employee, discount) and every detail value is
formatted into the text; only string values are quote-escaped. -/
def call_create_sale_sqlText (invoiceNo customerId employeeId : String)
    (discount : Rat) (details : List DetailRow) : String :=
  "SET NOCOUNT ON; DECLARE @Details dbo.SaleDetailType; "
    ++ "DECLARE @CreatedKey NVARCHAR(20); DECLARE @Success BIT; "
    ++ "DECLARE @ErrorMessage NVARCHAR(500); "
    ++ joinLines (details.map saleDetailInsert)
    ++ " EXEC dbo.usp_CreateSale @InvoiceNo = N'" ++ escapeQuotes invoiceNo
    ++ "', @CustomerID = N'" ++ escapeQuotes customerId
    ++ "', @EmployeeID = N'" ++ escapeQuotes employeeId
    ++ "', @Discount = " ++ ratLit discount
    ++ ", @Details = @Details, @CreatedKey = @CreatedKey OUTPUT, "
    ++ "@Success = @Success OUTPUT, @ErrorMessage = @ErrorMessage OUTPUT; "
    ++ "SELECT @Success AS Success, @CreatedKey AS CreatedKey, "
    ++ "@ErrorMessage AS ErrorMessage;"

/-- A statement together with its pyodbc-bound parameters. -/
structure SqlCall where
  text : String
  boundParams : List String
deriving DecidableEq

/-- The statement `call_create_purchase` sends: detail values are formatted
into the text, but the header values (`purchase_no`, `supplier_id`,
`notes`) are passed as `?` bound parameters. -/
def call_create_purchase_sql (purchaseNo supplierId : String)
    (notes : Option String) (details : List DetailRow) : SqlCall :=
  { text :=
      "DECLARE @Details dbo.PurchaseDetailType; "
        ++ "DECLARE @CreatedKey NVARCHAR(20); DECLARE @Success BIT; "
        ++ "DECLARE @ErrorMessage NVARCHAR(500); "
        ++ joinLines (details.map purchaseDetailInsert)
        ++ " EXEC dbo.usp_CreatePurchase @Purchase_No = ?, @Supplier_ID = ?, "
        ++ "@Notes = ?, @Details = @Details, @CreatedKey = @CreatedKey OUTPUT, "
        ++ "@Success = @Success OUTPUT, @ErrorMessage = @ErrorMessage OUTPUT; "
        ++ "SELECT @Success AS Success, @CreatedKey AS CreatedKey, "
        ++ "@ErrorMessage AS ErrorMessage;",
    boundParams := [purchaseNo, supplierId, notes.getD "NULL"] }

/-! ## Store-access traces of `call_create_sale` and of `_checkout` -/

/-- One step of `call_create_sale`'s interaction with the store. -/
inductive SaleCallEvent where
  | connect
  | execBatch (sql : String)
  | fetchRow
  | commitTx
  | rollbackTx
deriving DecidableEq

/-- The store interactions `db.call_create_sale` performs, in order: the
function body starts with `with connection_context()`, then builds and
executes the batch; there is no input-validation branch before the
connection, for any input. On a `pyodbc.Error` it rolls back, otherwise it
fetches the result row and commits. -/
def call_create_sale_events (invoiceNo customerId employeeId : String)
    (discount : Rat) (details : List DetailRow) (raises : Bool) :
    List SaleCallEvent :=
  [SaleCallEvent.connect,
   SaleCallEvent.execBatch
     (call_create_sale_sqlText invoiceNo customerId employeeId discount details)]
  ++ (if raises then [SaleCallEvent.rollbackTx]
      else [SaleCallEvent.fetchRow, SaleCallEvent.commitTx])

/-- One store operation inside a transaction of the checkout flow. -/
inductive StoreOp where
  | seqRead (entity : String)
  | headerInsert (key : String)
  | detailInsert (key productCode : String)
  | stockWrite (productCode : String)
deriving DecidableEq

def isSeqRead : StoreOp → Bool
  | StoreOp.seqRead _ => true
  | _ => false

def isHeaderInsert : StoreOp → Bool
  | StoreOp.headerInsert _ => true
  | _ => false

/-- The store transactions performed by `SalePOSView._checkout` when the
operator confirms payment: `SaleRepository.get_next_id()` runs
`usp_GetNextInvoiceNo` on its own connection (`cursor_context`), one
transaction; then `SaleRepository.create_sale` → `db.call_create_sale`
opens a new connection and runs the `usp_CreateSale` batch (header insert,
detail inserts, stock updates) as a second transaction. -/
def checkoutSaleTxns (invoiceNo : String) (details : List DetailRow) :
    List (List StoreOp) :=
  [[StoreOp.seqRead "INV"],
   StoreOp.headerInsert invoiceNo ::
     (details.map (fun d => StoreOp.detailInsert invoiceNo d.productCode)
       ++ (distinctCodes details).map StoreOp.stockWrite)]

/-- Does any single transaction contain both the sequencer read and the
header insert? -/
def allocationWithHeaderTxn (txns : List (List StoreOp)) : Bool :=
  txns.any (fun t => t.any isSeqRead && t.any isHeaderInsert)

/-! ## Exception behaviour of the repository wrappers

The wrappers in `inventory_repository.py` / `purchase_repository.py` are
modelled as `Except String` computations over an environment that fixes
the outcome of each low-level pyodbc step (connection open, statement
execution). `Except.error` is a Python exception propagating to the
caller; `Except.ok` is a normal return. -/

/-- Lower-case an ASCII letter (Python's `str.lower`). -/
def lowerChar (c : Char) : Char :=
  if 65 ≤ c.toNat ∧ c.toNat ≤ 90 then Char.ofNat (c.toNat + 32) else c

def isHeadOf : List Char → List Char → Bool
  | [], _ => true
  | _ :: _, [] => false
  | n :: ns, h :: hs => if h = n then isHeadOf ns hs else false

def subListB : List Char → List Char → Bool
  | needle, [] => match needle with | [] => true | _ => false
  | needle, c :: rest =>
      if isHeadOf needle (c :: rest) then true else subListB needle rest

/-- Python's `needle in hay.lower()` (needle already lower-case). -/
def strContainsLower (hay needle : String) : Bool :=
  subListB (needle.data.map lowerChar) (hay.data.map lowerChar)

/-- Outcomes of the low-level pyodbc steps used by the four wrappers:
each field is the behaviour of one connection-open or statement-execution,
`Except.error` meaning it raises. -/
structure DbEnv where
  readConnect : Except String Unit
  readRows : Except String (Option Int)
  adjConnect : Except String Unit
  adjExec : Except String Unit
  recvConnect : Except String Unit
  recvExec : Except String Unit
  cancConnect : Except String Unit
  cancExec : Except String Unit

/-- Embedding of `db.call_procedure(..., has_output=False)`: the connection
open happens before the internal `try`, so its exception propagates; a
`pyodbc.Error` from the execution is caught (rollback) and `False`
returned; otherwise `True`. -/
def call_procedure_noout (connect : Except String Unit)
    (exec : Except String Unit) : Except String Bool :=
  match connect with
  | Except.error e => Except.error e
  | Except.ok _ =>
      match exec with
      | Except.error _ => Except.ok false
      | Except.ok _ => Except.ok true

/-- Embedding of `db.call_procedure_with_result` via `cursor_context`:
every exception (connection or execution) propagates to the caller. -/
def call_procedure_rows (connect : Except String Unit)
    (rows : Except String (Option Int)) : Except String (Option Int) :=
  match connect with
  | Except.error e => Except.error e
  | Except.ok _ => rows

/-- Embedding of `InventoryRepository.get_stock_level`: runs the read and
returns the row's stock, or `0` when no row; exceptions propagate. -/
def get_stock_level_env (env : DbEnv) : Except String Int :=
  match call_procedure_rows env.readConnect env.readRows with
  | Except.error e => Except.error e
  | Except.ok (some q) => Except.ok q
  | Except.ok none => Except.ok 0

/-- Embedding of `InventoryRepository.adjust_stock`: the whole body sits in
`try: ... except Exception: return False`. -/
def adjust_stock_env (env : DbEnv) : Except String Bool :=
  match call_procedure_noout env.adjConnect env.adjExec with
  | Except.error _ => Except.ok false
  | Except.ok b => Except.ok b

/-- Embedding of `InventoryRepository.update_stock`: rejects a negative
target, then reads the current level OUTSIDE any `try` (an exception there
propagates to the caller), and only wraps the adjustment call in
`try/except`. -/
def update_stock_env (env : DbEnv) (newStock : Int) : Except String Bool :=
  if newStock < 0 then Except.ok false
  else
    match get_stock_level_env env with
    | Except.error e => Except.error e
    | Except.ok _current =>
        match call_procedure_noout env.adjConnect env.adjExec with
        | Except.error _ => Except.ok false
        | Except.ok b => Except.ok b

/-- Embedding of `PurchaseRepository.mark_as_received`: the whole body sits
in `try/except`, the handler mapping the exception text to a message. -/
def mark_as_received_env (env : DbEnv) : Except String (Bool × String) :=
  match call_procedure_noout env.recvConnect env.recvExec with
  | Except.ok true =>
      Except.ok (true, "Purchase marked as received. Inventory updated.")
  | Except.ok false =>
      Except.ok (false, "Purchase not found or already received")
  | Except.error e =>
      if strContainsLower e "not found" then Except.ok (false, "Purchase not found")
      else if strContainsLower e "already" then
        Except.ok (false, "Purchase already marked as received")
      else Except.ok (false, "Error: " ++ e)

/-- Embedding of `PurchaseRepository.cancel_purchase` (same try/except
shape as `mark_as_received`). -/
def cancel_purchase_env (env : DbEnv) : Except String (Bool × String) :=
  match call_procedure_noout env.cancConnect env.cancExec with
  | Except.ok true =>
      Except.ok (true, "Purchase order cancelled successfully.")
  | Except.ok false =>
      Except.ok (false, "Purchase not found or cannot be cancelled")
  | Except.error e =>
      if strContainsLower e "received" then
        Except.ok (false, "Cannot cancel a received purchase")
      else Except.ok (false, "Error: " ++ e)

/-- The environment in which the first store read raises (connection
failure). -/
def envReadDown : DbEnv :=
  ⟨Except.error "db down", Except.ok none, Except.ok (), Except.ok (),
   Except.ok (), Except.ok (), Except.ok (), Except.ok ()⟩

/-- The environment in which every store call succeeds. -/
def envAllOk : DbEnv :=
  ⟨Except.ok (), Except.ok (some 5), Except.ok (), Except.ok (),
   Except.ok (), Except.ok (), Except.ok (), Except.ok ()⟩

/-! ## Lemmas and claim theorems -/

theorem lookupStock_setStock (l : List (String × Int)) (code : String) (q : Int)
    (c : String) :
    lookupStock (setStock l code q) c =
      if code = c then some q else lookupStock l c := by
  induction l with
  | nil =>
    by_cases h : code = c <;> simp [setStock, lookupStock, h]
  | cons p rest ih =>
    by_cases hp : p.1 = code
    · by_cases h : code = c
      · simp [setStock, hp, lookupStock, h]
      · have hpc : ¬ (p.1 = c) := by rw [hp]; exact h
        simp [setStock, hp, lookupStock, h, hpc]
    · by_cases hc : p.1 = c
      · have h : ¬ (code = c) := fun hh => hp (hh ▸ hc)
        have h' : ¬ (c = code) := fun hh => h hh.symm
        simp [setStock, hp, lookupStock, hc, h, h']
      · simp [setStock, hp, lookupStock, hc, ih]

theorem getStock_adjustStockState (st : DBState) (code : String) (delta : Int)
    (c : String) :
    getStock (adjustStockState st code delta) c =
      if code = c then getStock st code + delta else getStock st c := by
  by_cases h : code = c <;>
    simp [getStock, adjustStockState, lookupStock_setStock, h]

theorem stockNonneg_adjust {st : DBState} {code : String} {delta : Int}
    (h : stockNonneg st) (hres : 0 ≤ getStock st code + delta) :
    stockNonneg (adjustStockState st code delta) := by
  intro c
  rw [getStock_adjustStockState]
  split
  · exact hres
  · exact h c

/-- Fields other than `stock` are untouched by a stock adjustment. -/
theorem adjustStockState_frame (st : DBState) (code : String) (delta : Int) :
    (adjustStockState st code delta).sales = st.sales ∧
    (adjustStockState st code delta).saleDetails = st.saleDetails ∧
    (adjustStockState st code delta).purchases = st.purchases ∧
    (adjustStockState st code delta).purchaseDetails = st.purchaseDetails := by
  simp [adjustStockState]

/-! ## Lemmas about the stock and purchase primitives -/

theorem getStock_foldl_adjust (f : String → Int) (L : List String) :
    ∀ (st : DBState), L.Nodup → ∀ c,
      getStock (L.foldl (fun s x => adjustStockState s x (f x)) st) c =
        if c ∈ L then getStock st c + f c else getStock st c := by
  induction L with
  | nil => intro st _ c; simp
  | cons x xs ih =>
    intro st hnd c
    have hx : x ∉ xs := (List.nodup_cons.mp hnd).1
    have hxs : xs.Nodup := (List.nodup_cons.mp hnd).2
    rw [List.foldl_cons, ih _ hxs]
    by_cases hmem : c ∈ xs
    · have hne : ¬ (x = c) := fun he => hx (he ▸ hmem)
      simp [getStock_adjustStockState, hne, hmem]
    · by_cases hcx : c = x
      · subst hcx
        simp [getStock_adjustStockState, hmem]
      · have hne : ¬ (x = c) := fun he => hcx he.symm
        simp [getStock_adjustStockState, hne, hmem, hcx]

theorem foldl_adjust_frame (f : String → Int) (L : List String) :
    ∀ (st : DBState),
      (L.foldl (fun s x => adjustStockState s x (f x)) st).sales = st.sales ∧
      (L.foldl (fun s x => adjustStockState s x (f x)) st).saleDetails
        = st.saleDetails ∧
      (L.foldl (fun s x => adjustStockState s x (f x)) st).purchases
        = st.purchases ∧
      (L.foldl (fun s x => adjustStockState s x (f x)) st).purchaseDetails
        = st.purchaseDetails := by
  induction L with
  | nil => intro st; simp
  | cons x xs ih =>
    intro st
    rw [List.foldl_cons]
    exact ⟨(ih _).1.trans (adjustStockState_frame st x (f x)).1,
           (ih _).2.1.trans (adjustStockState_frame st x (f x)).2.1,
           (ih _).2.2.1.trans (adjustStockState_frame st x (f x)).2.2.1,
           (ih _).2.2.2.trans (adjustStockState_frame st x (f x)).2.2.2⟩

theorem getStock_decrementAll (st : DBState) (details : List DetailRow)
    (c : String) :
    getStock (decrementAll st details) c =
      if c ∈ distinctCodes details then getStock st c - requestedQty details c
      else getStock st c := by
  have h := getStock_foldl_adjust (fun x => -(requestedQty details x))
    (distinctCodes details) st (List.nodup_dedup _) c
  rw [decrementAll]
  rw [h]
  split <;> [rw [Int.sub_eq_add_neg]; rfl]

theorem stockNonneg_decrementAll {st : DBState} {details : List DetailRow}
    (hnn : stockNonneg st) (hs : stockSufficient st details) :
    stockNonneg (decrementAll st details) := by
  intro c
  rw [getStock_decrementAll]
  split
  case isTrue hmem => exact Int.sub_nonneg.mpr (hs c hmem)
  case isFalse => exact hnn c

theorem adjustAllLines_frame :
    ∀ (L : List (String × Int)) (st st' : DBState),
      adjustAllLines st L = some st' →
      st'.sales = st.sales ∧ st'.saleDetails = st.saleDetails ∧
      st'.purchases = st.purchases ∧ st'.purchaseDetails = st.purchaseDetails := by
  intro L
  induction L with
  | nil =>
    intro st st' h
    simp [adjustAllLines] at h
    subst h; exact ⟨rfl, rfl, rfl, rfl⟩
  | cons l rest ih =>
    intro st st' h
    rw [adjustAllLines] at h
    unfold usp_AdjustInventory at h
    by_cases hc : getStock st l.1 + l.2 < 0
    · simp [hc] at h
    · simp only [hc, if_false, if_neg hc] at h
      have := ih _ _ h
      exact ⟨this.1.trans (adjustStockState_frame st l.1 l.2).1,
             this.2.1.trans (adjustStockState_frame st l.1 l.2).2.1,
             this.2.2.1.trans (adjustStockState_frame st l.1 l.2).2.2.1,
             this.2.2.2.trans (adjustStockState_frame st l.1 l.2).2.2.2⟩

theorem adjustAllLines_nonneg :
    ∀ (L : List (String × Int)) (st st' : DBState),
      stockNonneg st → adjustAllLines st L = some st' → stockNonneg st' := by
  intro L
  induction L with
  | nil =>
    intro st st' hnn h
    simp [adjustAllLines] at h
    subst h; exact hnn
  | cons l rest ih =>
    intro st st' hnn h
    rw [adjustAllLines] at h
    unfold usp_AdjustInventory at h
    by_cases hc : getStock st l.1 + l.2 < 0
    · simp [hc] at h
    · simp only [hc, if_false, if_neg hc] at h
      exact ih _ _ (stockNonneg_adjust hnn (Int.not_lt.mp hc)) h

theorem findPurchase_setPurchStatus (l : List PurchaseHeader) (pno : String)
    (s : PurchStatus) :
    findPurchase (setPurchStatus l pno s) pno =
      (findPurchase l pno).map (fun h => { h with status := s }) := by
  induction l with
  | nil => simp [setPurchStatus, findPurchase]
  | cons h rest ih =>
    by_cases hp : h.purchaseNo = pno
    · simp [setPurchStatus, findPurchase, hp]
    · simp [setPurchStatus, findPurchase, hp, ih]

theorem findPurchase_append_of_notin (l1 l2 : List PurchaseHeader)
    (pno : String) (hfree : ∀ h ∈ l1, ¬ (h.purchaseNo = pno)) :
    findPurchase (l1 ++ l2) pno = findPurchase l2 pno := by
  induction l1 with
  | nil => simp
  | cons h rest ih =>
    have hh : ¬ (h.purchaseNo = pno) := hfree h (List.mem_cons_self _ _)
    rw [List.cons_append, findPurchase, if_neg hh]
    exact ih (fun x hx => hfree x (List.mem_cons_of_mem _ hx))

theorem findPurchase_removePurchase (l : List PurchaseHeader) (pno : String) :
    findPurchase (removePurchase l pno) pno = none := by
  induction l with
  | nil => simp [removePurchase, findPurchase]
  | cons h rest ih =>
    by_cases hp : h.purchaseNo = pno
    · simp [removePurchase, hp, ih]
    · simp [removePurchase, findPurchase, hp, ih]

theorem purchaseLines_append (l1 l2 : List PurchaseDetailRow) (pno : String) :
    purchaseLines (l1 ++ l2) pno =
      purchaseLines l1 pno ++ purchaseLines l2 pno := by
  induction l1 with
  | nil => simp [purchaseLines]
  | cons d rest ih =>
    by_cases hp : d.purchaseNo = pno <;>
      simp [purchaseLines, hp, ih]

theorem purchaseLines_nil_of_notin (l : List PurchaseDetailRow) (pno : String)
    (hfree : ∀ d ∈ l, ¬ (d.purchaseNo = pno)) :
    purchaseLines l pno = [] := by
  induction l with
  | nil => rfl
  | cons d rest ih =>
    have hd : ¬ (d.purchaseNo = pno) := hfree d (List.mem_cons_self _ _)
    rw [purchaseLines, if_neg hd]
    exact ih (fun x hx => hfree x (List.mem_cons_of_mem _ hx))

/-- A successful `receive` marks the header `Received` (and touches no other
header with the same key lookup). -/
theorem findPurchase_after_receive {st st' : DBState} {pno : String}
    (h : usp_MarkPurchaseReceived st pno = (st', true)) :
    findPurchase st'.purchases pno =
      (findPurchase st.purchases pno).map
        (fun hh => { hh with status := PurchStatus.received }) := by
  unfold usp_MarkPurchaseReceived at h
  split at h
  case h_1 => simp at h
  case h_2 hd hf =>
    split at h
    · split at h
      case h_1 st1 ha =>
        simp only [Prod.mk.injEq] at h
        have hst : st' = { st1 with
            purchases := setPurchStatus st1.purchases pno PurchStatus.received } :=
          h.1.symm
        have hp1 : st1.purchases = st.purchases :=
          (adjustAllLines_frame _ _ _ ha).2.2.1
        rw [hst]
        show findPurchase (setPurchStatus st1.purchases pno PurchStatus.received) pno = _
        rw [findPurchase_setPurchStatus, hp1, hf]
      case h_2 => simp at h
    · simp at h

/-- `receive` on a header that is not `Pending` fails and changes nothing. -/
theorem receive_fails_of_not_pending {st : DBState} {pno : String}
    {hd : PurchaseHeader} (hf : findPurchase st.purchases pno = some hd)
    (hs : ¬ (hd.status = PurchStatus.pending)) :
    usp_MarkPurchaseReceived st pno = (st, false) := by
  unfold usp_MarkPurchaseReceived
  rw [hf]
  simp [hs]

/-- `cancel` on a header that is not `Pending` fails and changes nothing. -/
theorem cancel_fails_of_not_pending {st : DBState} {pno : String}
    {hd : PurchaseHeader} (hf : findPurchase st.purchases pno = some hd)
    (hs : ¬ (hd.status = PurchStatus.pending)) :
    usp_CancelPurchase st pno = (st, false) := by
  unfold usp_CancelPurchase
  rw [hf]
  simp [hs]

/-- `receive` on a missing header fails and changes nothing. -/
theorem receive_fails_of_missing {st : DBState} {pno : String}
    (hf : findPurchase st.purchases pno = none) :
    usp_MarkPurchaseReceived st pno = (st, false) := by
  unfold usp_MarkPurchaseReceived
  rw [hf]

/-- `cancel` on a missing header fails and changes nothing. -/
theorem cancel_fails_of_missing {st : DBState} {pno : String}
    (hf : findPurchase st.purchases pno = none) :
    usp_CancelPurchase st pno = (st, false) := by
  unfold usp_CancelPurchase
  rw [hf]

/-- A successful `cancel` deletes the header. -/
theorem findPurchase_after_cancel {st st' : DBState} {pno : String}
    (h : usp_CancelPurchase st pno = (st', true)) :
    findPurchase st'.purchases pno = none := by
  unfold usp_CancelPurchase at h
  split at h
  case h_1 => simp at h
  case h_2 hd hf =>
    split at h
    · simp only [Prod.mk.injEq] at h
      rw [← h.1]
      exact findPurchase_removePurchase _ _
    · simp at h

/-- A failing `usp_CreateSale` leaves the state unchanged (full rollback). -/
theorem usp_CreateSale_fail {st st' : DBState} {inv cust emp : String}
    {disc : Rat} {details : List DetailRow} {msg : String}
    (h : usp_CreateSale st inv cust emp disc details = (st', SPOutcome.fail msg)) :
    st' = st := by
  unfold usp_CreateSale at h
  split at h
  · simp only [Prod.mk.injEq] at h
    exact h.1.symm
  · split at h
    · simp at h
    · simp only [Prod.mk.injEq] at h
      exact h.1.symm

theorem stockNonneg_usp_AdjustInventory {st : DBState} (code : String)
    (delta : Int) (hnn : stockNonneg st) :
    stockNonneg (usp_AdjustInventory st code delta).1 := by
  unfold usp_AdjustInventory
  split
  · exact hnn
  case isFalse hc => exact stockNonneg_adjust hnn (Int.not_lt.mp hc)

theorem stockNonneg_usp_CreateSale {st : DBState} (inv cust emp : String)
    (disc : Rat) (details : List DetailRow) (hnn : stockNonneg st) :
    stockNonneg (usp_CreateSale st inv cust emp disc details).1 := by
  unfold usp_CreateSale
  split
  · exact hnn
  · split
    case isTrue hs => exact fun c => stockNonneg_decrementAll hnn hs c
    case isFalse => exact hnn

theorem stockNonneg_call_create_sale {st : DBState} (inv cust emp : String)
    (disc : Rat) (details : List DetailRow) (raises : Bool)
    (hnn : stockNonneg st) :
    stockNonneg (call_create_sale st inv cust emp disc details raises).1 := by
  unfold call_create_sale
  split
  · exact hnn
  · have h := stockNonneg_usp_CreateSale inv cust emp disc details hnn
    split
    case h_1 heq => rw [heq] at h; exact h
    case h_2 heq => rw [heq] at h; exact h

theorem stockNonneg_usp_CreatePurchase {st : DBState} (pno sid : String)
    (details : List DetailRow) (hnn : stockNonneg st) :
    stockNonneg (usp_CreatePurchase st pno sid details).1 := by
  unfold usp_CreatePurchase
  split
  · exact hnn
  · split
    case h_1 => exact hnn
    case h_2 st1 ha => exact fun c => adjustAllLines_nonneg _ _ _ hnn ha c

theorem stockNonneg_call_create_purchase {st : DBState} (pno sid : String)
    (notes : Option String) (details : List DetailRow) (raises : Bool)
    (hnn : stockNonneg st) :
    stockNonneg (call_create_purchase st pno sid notes details raises).1 := by
  unfold call_create_purchase
  split
  · exact hnn
  · have h := stockNonneg_usp_CreatePurchase pno sid details hnn
    split
    case h_1 heq => rw [heq] at h; exact h
    case h_2 heq => rw [heq] at h; exact h

theorem stockNonneg_usp_CreatePurchaseOrder {st : DBState}
    (pno sid code : String) (q : Int) (p : Rat) (hnn : stockNonneg st) :
    stockNonneg (usp_CreatePurchaseOrder st pno sid code q p).1 := by
  unfold usp_CreatePurchaseOrder
  split
  · exact hnn
  · exact fun c => hnn c

theorem stockNonneg_usp_MarkPurchaseReceived {st : DBState} (pno : String)
    (hnn : stockNonneg st) :
    stockNonneg (usp_MarkPurchaseReceived st pno).1 := by
  unfold usp_MarkPurchaseReceived
  split
  · exact hnn
  · split
    · split
      case h_1 st1 ha => exact fun c => adjustAllLines_nonneg _ _ _ hnn ha c
      case h_2 => exact hnn
    · exact hnn

theorem stockNonneg_usp_CancelPurchase {st : DBState} (pno : String)
    (hnn : stockNonneg st) :
    stockNonneg (usp_CancelPurchase st pno).1 := by
  unfold usp_CancelPurchase
  split
  · exact hnn
  · split
    · exact fun c => hnn c
    · exact hnn

theorem stockNonneg_mark_as_received {st : DBState} (pno : String)
    (hnn : stockNonneg st) :
    stockNonneg (mark_as_received st pno).1 := by
  unfold mark_as_received
  have h := stockNonneg_usp_MarkPurchaseReceived pno hnn
  split
  case h_1 heq => rw [heq] at h; exact h
  case h_2 heq => rw [heq] at h; exact h

theorem stockNonneg_cancel_purchase {st : DBState} (pno : String)
    (hnn : stockNonneg st) :
    stockNonneg (cancel_purchase st pno).1 := by
  unfold cancel_purchase
  have h := stockNonneg_usp_CancelPurchase pno hnn
  split
  case h_1 heq => rw [heq] at h; exact h
  case h_2 heq => rw [heq] at h; exact h

theorem stockNonneg_update_stock {st : DBState} (code : String) (n : Int)
    (hnn : stockNonneg st) :
    stockNonneg (update_stock st code n).1 := by
  unfold update_stock
  split
  · exact hnn
  · exact stockNonneg_usp_AdjustInventory code _ hnn

theorem stockNonneg_applyOp {st : DBState} (op : Op) (hnn : stockNonneg st) :
    stockNonneg (applyOp st op) := by
  cases op with
  | createSale inv cust emp disc det r =>
      exact stockNonneg_call_create_sale inv cust emp disc det r hnn
  | createPurchase pno sid n det r =>
      exact stockNonneg_call_create_purchase pno sid n det r hnn
  | createPurchaseOrder pno sid code q p =>
      exact stockNonneg_usp_CreatePurchaseOrder pno sid code q p hnn
  | receivePurchase pno => exact stockNonneg_mark_as_received pno hnn
  | cancelPurch pno => exact stockNonneg_cancel_purchase pno hnn
  | adjustInv code d => exact stockNonneg_usp_AdjustInventory code d hnn
  | updateInv code n => exact stockNonneg_update_stock code n hnn

theorem stockNonneg_runOps {st : DBState} (ops : List Op)
    (hnn : stockNonneg st) : stockNonneg (runOps st ops) := by
  induction ops generalizing st with
  | nil => exact hnn
  | cons op rest ih => exact ih (stockNonneg_applyOp op hnn)

/-! ## Claim theorems -/

/-- C1: for every line list and every discount, when `commit_sale`
(`db.call_create_sale`) fails — the stored procedure reports failure or the
batch raises — the operation returns a typed error result (`success =
False`, an error message, no created key) and the stock and order tables
are exactly as they were before the call. -/
theorem C1_commit_sale_atomic (st : DBState) (inv cust emp : String)
    (disc : Rat) (details : List DetailRow) (raises : Bool)
    (hfail : (call_create_sale st inv cust emp disc details raises).2.success
      = false) :
    (call_create_sale st inv cust emp disc details raises).1 = st ∧
    (call_create_sale st inv cust emp disc details raises).2.errorMessage.isSome
      = true ∧
    (call_create_sale st inv cust emp disc details raises).2.createdKey
      = none := by
  by_cases hr : raises
  · simp [call_create_sale, hr]
  · rcases h : usp_CreateSale st inv cust emp disc details with ⟨st1, out⟩
    cases out with
    | ok key =>
        exfalso
        rw [call_create_sale, if_neg hr, h] at hfail
        simp at hfail
    | fail msg =>
        have hst : st1 = st := usp_CreateSale_fail h
        rw [call_create_sale, if_neg hr, h, hst]
        simp

/-- Concrete run of `C1_commit_sale_atomic`: a sale of one unit of
`PRD001` against an empty store fails (insufficient stock) and changes
nothing. -/
theorem C1_commit_sale_atomic_witness :
    (call_create_sale (⟨[], [], [], [], []⟩ : DBState) "INV001" "C000"
        "EMP001" 0 [⟨"PRD001", 1, 2⟩] false).2.success = false ∧
    ((call_create_sale (⟨[], [], [], [], []⟩ : DBState) "INV001" "C000"
        "EMP001" 0 [⟨"PRD001", 1, 2⟩] false).1 = ⟨[], [], [], [], []⟩ ∧
     (call_create_sale (⟨[], [], [], [], []⟩ : DBState) "INV001" "C000"
        "EMP001" 0 [⟨"PRD001", 1, 2⟩] false).2.errorMessage.isSome = true ∧
     (call_create_sale (⟨[], [], [], [], []⟩ : DBState) "INV001" "C000"
        "EMP001" 0 [⟨"PRD001", 1, 2⟩] false).2.createdKey = none) :=
  ⟨rfl, C1_commit_sale_atomic _ "INV001" "C000" "EMP001" 0 _ false rfl⟩

/-- C2: over every sequence of sale commits, purchase creations/receipts,
cancellations and manual adjustments, every product's stock stays `≥ 0`;
`adjust_stock` with `current + delta < 0` fails and applies no change;
`update_stock` rejects a negative target level. -/
theorem C2_stock_invariant :
    (∀ (st : DBState) (ops : List Op), stockNonneg st →
        stockNonneg (runOps st ops)) ∧
    (∀ (st : DBState) (code : String) (delta : Int),
        getStock st code + delta < 0 →
        adjust_stock st code delta = (st, false)) ∧
    (∀ (st : DBState) (code : String) (n : Int), n < 0 →
        update_stock st code n = (st, false)) := by
  refine ⟨fun st ops h => stockNonneg_runOps ops h,
    fun st code delta h => ?_, fun st code n h => ?_⟩
  · simp [adjust_stock, usp_AdjustInventory, h]
  · simp [update_stock, h]

/-- Concrete run of `C2_stock_invariant`: a sale plus adjustment sequence
keeps stock nonnegative; an adjustment of `-3` against stock `1` fails
without change; a negative target level is rejected. -/
theorem C2_stock_invariant_witness :
    stockNonneg (runOps (⟨[], [], [], [], []⟩ : DBState)
      [Op.adjustInv "PRD001" 5, Op.adjustInv "PRD001" (-2)]) ∧
    adjust_stock (⟨[("PRD001", 1)], [], [], [], []⟩ : DBState) "PRD001" (-3)
      = (⟨[("PRD001", 1)], [], [], [], []⟩, false) ∧
    update_stock (⟨[("PRD001", 1)], [], [], [], []⟩ : DBState) "PRD001" (-1)
      = (⟨[("PRD001", 1)], [], [], [], []⟩, false) :=
  ⟨C2_stock_invariant.1 _ _ (fun _ => Int.le_refl 0),
   C2_stock_invariant.2.1 _ _ _ (by decide),
   C2_stock_invariant.2.2 _ _ _ (by decide)⟩

/-- C8: the identifier sequencer returns the entity marker followed by the
minimum suffix `001` when no keys exist, and `INV010` when the maximum
existing key suffix is 9 (`INV009`), preserving the fixed zero-padded
width. -/
theorem C8_sequencer_next (pfx : String) (keys : List String)
    (h : maxKeySuffix "INV" keys = 9) :
    sequencerNext pfx [] = pfx ++ "001" ∧
    sequencerNext "INV" keys = "INV010" := by
  constructor
  · have h0 : maxKeySuffix pfx [] = 0 := rfl
    rw [sequencerNext, h0]
    congr 1
  · rw [sequencerNext, h]
    decide

/-- Concrete run of `C8_sequencer_next` at key list `["INV009"]` and
marker `"PUR"`. -/
theorem C8_sequencer_next_witness :
    maxKeySuffix "INV" ["INV009"] = 9 ∧
    (sequencerNext "PUR" [] = "PUR" ++ "001" ∧
     sequencerNext "INV" ["INV009"] = "INV010") :=
  ⟨by decide, C8_sequencer_next "PUR" ["INV009"] (by decide)⟩

/-- C3 counterexample: with a cart of subtotal 10 and POS discount 20, the
discount passed to the persisted sale is the raw 20, not the spec's
discount clamped to `[0, subtotal]` (which is 10) — refuting the claim
that the persisted discount equals the clamped preview discount. -/
theorem C3_pricing_counterexample :
    ¬ (checkout_sale_discount 20 =
        spec_clampedDiscount
          (cartSubtotal [⟨1, "PRD001", "n", "s", "b", 10, 1, 5⟩]) 20) := by
  norm_num [checkout_sale_discount, spec_clampedDiscount, cartSubtotal,
    CartItem.total_price, List.foldl_cons, List.foldl_nil, max_def, min_def]

/-- C3 (amended): the preview (`_update_totals`, without an all-day
percentage) and the checkout recomputation agree exactly; the discount
passed to the persisted sale is the raw POS discount; and whenever
`0 ≤ discount ≤ subtotal` the preview tax and total equal the spec's
clamped-discount formulas and the passed discount equals the clamped
discount. Outside that range the code clamps only `subtotal - discount`
at zero and passes the unclamped discount on. -/
theorem C3_pricing_amended (cart : List CartItem) (d taxPct : Rat) :
    update_totals cart d none taxPct = checkout_totals cart d taxPct ∧
    checkout_sale_discount d = d ∧
    (0 ≤ d → d ≤ cartSubtotal cart →
      (checkout_totals cart d taxPct).tax
          = spec_tax_amount (cartSubtotal cart) d (taxPct / 100) ∧
      (checkout_totals cart d taxPct).total
          = spec_net (cartSubtotal cart) d (taxPct / 100) ∧
      checkout_sale_discount d = spec_clampedDiscount (cartSubtotal cart) d) := by
  have had : (if cartSubtotal cart - d < 0 then (0 : Rat)
      else cartSubtotal cart - d) = max 0 (cartSubtotal cart - d) := by
    rcases lt_or_le (cartSubtotal cart - d) 0 with hlt | hle
    · rw [if_pos hlt, max_eq_left hlt.le]
    · rw [if_neg (not_lt.mpr hle), max_eq_right hle]
  refine ⟨?_, rfl, fun h0 h1 => ?_⟩
  · simp only [update_totals, checkout_totals, had]
  · have hclamp : spec_clampedDiscount (cartSubtotal cart) d = d := by
      rw [spec_clampedDiscount, max_eq_left h0, min_eq_left h1]
    have hpos : (0 : Rat) ≤ cartSubtotal cart - d := sub_nonneg.mpr h1
    refine ⟨?_, ?_, ?_⟩
    · simp only [checkout_totals, spec_tax_amount, hclamp,
        max_eq_right hpos]
    · simp only [checkout_totals, spec_net, spec_tax_amount, hclamp,
        max_eq_right hpos]
    · rw [checkout_sale_discount, hclamp]

/-- Concrete run of `C3_pricing_amended`: cart of subtotal 10, discount 4,
tax rate 10%. -/
theorem C3_pricing_amended_witness :
    (0 : Rat) ≤ 4 ∧
    (4 : Rat) ≤ cartSubtotal [⟨1, "PRD001", "n", "s", "b", 10, 1, 5⟩] ∧
    (update_totals [⟨1, "PRD001", "n", "s", "b", 10, 1, 5⟩] 4 none 10
        = checkout_totals [⟨1, "PRD001", "n", "s", "b", 10, 1, 5⟩] 4 10 ∧
     (checkout_totals [⟨1, "PRD001", "n", "s", "b", 10, 1, 5⟩] 4 10).tax
        = spec_tax_amount
            (cartSubtotal [⟨1, "PRD001", "n", "s", "b", 10, 1, 5⟩]) 4 (10 / 100) ∧
     (checkout_totals [⟨1, "PRD001", "n", "s", "b", 10, 1, 5⟩] 4 10).total
        = spec_net
            (cartSubtotal [⟨1, "PRD001", "n", "s", "b", 10, 1, 5⟩]) 4 (10 / 100) ∧
     checkout_sale_discount 4
        = spec_clampedDiscount
            (cartSubtotal [⟨1, "PRD001", "n", "s", "b", 10, 1, 5⟩]) 4) := by
  have hsub : cartSubtotal [⟨1, "PRD001", "n", "s", "b", 10, 1, 5⟩] = 10 := by
    norm_num [cartSubtotal, CartItem.total_price, List.foldl_cons,
      List.foldl_nil]
  have h4 : (4 : Rat) ≤ cartSubtotal [⟨1, "PRD001", "n", "s", "b", 10, 1, 5⟩] := by
    rw [hsub]; norm_num
  have H := C3_pricing_amended [⟨1, "PRD001", "n", "s", "b", 10, 1, 5⟩] 4 10
  exact ⟨by norm_num, h4,
    H.1, (H.2.2 (by norm_num) h4).1, (H.2.2 (by norm_num) h4).2.1,
    (H.2.2 (by norm_num) h4).2.2⟩

/-- C4 counterexample: called with an empty line list, `call_create_sale`
still opens a connection and executes the batch — its store-access trace
is nonempty — refuting "no connection, query, or stored-procedure call is
made for such an input" (and no `ValidationError` value exists in the
code). -/
theorem C4_validation_counterexample :
    ¬ (call_create_sale_events "INV001" "C000" "EMP001" 0 [] false = []) := by
  simp [call_create_sale_events]

/-- C4 (amended): `call_create_sale` performs no input validation at all —
for every input, including an empty line list or lines with non-positive
quantities, its first store interaction is opening a connection, followed
by executing the batch; nothing is rejected before store access. -/
theorem C4_no_validation_amended (inv cust emp : String) (disc : Rat)
    (details : List DetailRow) (raises : Bool) :
    (call_create_sale_events inv cust emp disc details raises).head?
      = some SaleCallEvent.connect ∧
    (call_create_sale_events inv cust emp disc details raises).get? 1
      = some (SaleCallEvent.execBatch
          (call_create_sale_sqlText inv cust emp disc details)) := by
  cases raises <;> simp [call_create_sale_events]

/-- C5 counterexample: in the checkout flow for a concrete one-line cart,
no single store transaction contains both the sequencer read
(`usp_GetNextInvoiceNo`) and the header insert — refuting "the sequencer
read and the header insert never occur in two separate transactions". -/
theorem C5_allocation_txn_counterexample :
    allocationWithHeaderTxn (checkoutSaleTxns "INV002" [⟨"PRD001", 2, 50⟩])
      = false := by
  decide

/-- C5 (amended): for every checkout, the flow runs exactly two store
transactions; the sequencer read occurs only in the first and the header
insert only in the second — identifier allocation is never inside the
header-insert transaction. -/
theorem C5_allocation_txn_amended (inv : String) (details : List DetailRow) :
    allocationWithHeaderTxn (checkoutSaleTxns inv details) = false ∧
    (checkoutSaleTxns inv details).map (fun t => t.any isSeqRead)
      = [true, false] ∧
    (checkoutSaleTxns inv details).map (fun t => t.any isHeaderInsert)
      = [false, true] := by
  refine ⟨?_, ?_, ?_⟩ <;>
    simp [checkoutSaleTxns, allocationWithHeaderTxn, isSeqRead, isHeaderInsert,
      List.any_map, Function.comp]

theorem findPurchase_eq_none_iff (l : List PurchaseHeader) (pno : String) :
    findPurchase l pno = none ↔ ∀ h ∈ l, ¬ (h.purchaseNo = pno) := by
  induction l with
  | nil => simp [findPurchase]
  | cons h rest ih =>
    by_cases hp : h.purchaseNo = pno
    · simp [findPurchase, hp]
    · simp [findPurchase, hp, ih]

/-- C6 counterexample: `call_create_purchase` (the `usp_CreatePurchase`
path, per its in-repo contract documentation) increases stock at creation
time — with stock 5 of `PRD001` and a 10-unit purchase line, stock after
the call differs from stock before — refuting "commit_purchase … leaves
every stock record unchanged". -/
theorem C6_purchase_stock_counterexample :
    ¬ (getStock (call_create_purchase (⟨[("PRD001", 5)], [], [], [], []⟩ : DBState)
          "PUR009" "SUP001" none [⟨"PRD001", 10, 25⟩] false).1 "PRD001"
        = getStock (⟨[("PRD001", 5)], [], [], [], []⟩ : DBState) "PRD001") := by
  decide

/-- `getStock` sees only the `stock` field (purchases update). -/
theorem getStock_update_purchases (st : DBState) (P : List PurchaseHeader)
    (c : String) : getStock { st with purchases := P } c = getStock st c := rfl

/-- `getStock` sees only the `stock` field (purchases + details update). -/
theorem getStock_update_pp (st : DBState) (P : List PurchaseHeader)
    (D : List PurchaseDetailRow) (c : String) :
    getStock { st with purchases := P, purchaseDetails := D } c
      = getStock st c := rfl

/-- C6 (amended): the `usp_CreatePurchaseOrder` path (used by
`create_with_product` and the inventory view) creates a `Pending` header
plus its detail line and leaves stock unchanged, and receiving the
purchase then increases the product's stock by exactly the ordered
quantity (all other products unchanged); the `usp_CreatePurchase` path of
`call_create_purchase`, by contrast, updates inventory already at
creation. -/
theorem C6_purchase_pending_amended (st : DBState) (pno sid code : String)
    (qty : Int) (price : Rat)
    (hfresh : findPurchase st.purchases pno = none)
    (hdet : ∀ d ∈ st.purchaseDetails, ¬ (d.purchaseNo = pno))
    (hq : 0 ≤ qty) (hnn : stockNonneg st) :
    (usp_CreatePurchaseOrder st pno sid code qty price).2 = true ∧
    (usp_CreatePurchaseOrder st pno sid code qty price).1.stock = st.stock ∧
    findPurchase (usp_CreatePurchaseOrder st pno sid code qty price).1.purchases
        pno = some ⟨pno, sid, PurchStatus.pending, price * qty⟩ ∧
    (mark_as_received (usp_CreatePurchaseOrder st pno sid code qty price).1
        pno).2.1 = true ∧
    ∀ c, getStock
        (mark_as_received (usp_CreatePurchaseOrder st pno sid code qty price).1
          pno).1 c
      = getStock st c + (if code = c then qty else 0) := by
  have hcond : ¬ ((findPurchase st.purchases pno).isSome = true) := by
    rw [hfresh]; simp
  have hr : usp_CreatePurchaseOrder st pno sid code qty price =
      ({ st with
          purchases := st.purchases ++
            [⟨pno, sid, PurchStatus.pending, price * qty⟩],
          purchaseDetails := st.purchaseDetails ++ [⟨pno, code, qty, price⟩] },
        true) := by
    rw [usp_CreatePurchaseOrder, if_neg hcond]
  rw [hr]
  set X : DBState := { st with
      purchases := st.purchases ++
        [⟨pno, sid, PurchStatus.pending, price * qty⟩],
      purchaseDetails := st.purchaseDetails ++ [⟨pno, code, qty, price⟩] }
    with hX
  have hXp : X.purchases = st.purchases ++
      [⟨pno, sid, PurchStatus.pending, price * qty⟩] := by rw [hX]
  have hXd : X.purchaseDetails = st.purchaseDetails ++
      [⟨pno, code, qty, price⟩] := by rw [hX]
  have hXs : ∀ x, getStock X x = getStock st x := by
    intro x; rw [hX]; exact getStock_update_pp st _ _ x
  have hfind : findPurchase X.purchases pno
      = some ⟨pno, sid, PurchStatus.pending, price * qty⟩ := by
    rw [hXp, findPurchase_append_of_notin _ _ _
      ((findPurchase_eq_none_iff _ _).mp hfresh)]
    simp [findPurchase]
  have hlines : purchaseLines X.purchaseDetails pno = [(code, qty)] := by
    rw [hXd, purchaseLines_append, purchaseLines_nil_of_notin _ _ hdet]
    simp [purchaseLines]
  have hnotlt : ¬ (getStock X code + qty < 0) := by
    rw [hXs]
    exact Int.not_lt.mpr (Int.add_nonneg (hnn code) hq)
  have hadj : adjustAllLines X [(code, qty)]
      = some (adjustStockState X code qty) := by
    simp [adjustAllLines, usp_AdjustInventory, hnotlt]
  have hrecv : usp_MarkPurchaseReceived X pno
      = ({ adjustStockState X code qty with
          purchases := setPurchStatus (adjustStockState X code qty).purchases
            pno PurchStatus.received }, true) := by
    simp [usp_MarkPurchaseReceived, hfind, hlines, hadj]
  have hmark : mark_as_received X pno
      = ({ adjustStockState X code qty with
            purchases := setPurchStatus (adjustStockState X code qty).purchases
              pno PurchStatus.received }, true,
         "Purchase marked as received. Inventory updated.") := by
    simp [mark_as_received, hrecv]
  refine ⟨rfl, by rw [hX], hfind, by rw [hmark], ?_⟩
  intro c
  simp only [hmark]
  rw [getStock_update_purchases, getStock_adjustStockState]
  by_cases hc : code = c
  · subst hc
    rw [if_pos rfl, if_pos rfl, hXs]
  · rw [if_neg hc, if_neg hc, add_zero, hXs]

/-- Concrete run of `C6_purchase_pending_amended`: a pending purchase of 10
units of `PRD001` created against stock 5 leaves stock at 5; receiving it
raises stock to 15 and reports success. -/
theorem C6_purchase_pending_amended_witness :
    (usp_CreatePurchaseOrder (⟨[("PRD001", 5)], [], [], [], []⟩ : DBState)
        "PUR002" "SUP001" "PRD001" 10 25).2 = true ∧
    (usp_CreatePurchaseOrder (⟨[("PRD001", 5)], [], [], [], []⟩ : DBState)
        "PUR002" "SUP001" "PRD001" 10 25).1.stock = [("PRD001", 5)] ∧
    (mark_as_received (usp_CreatePurchaseOrder
        (⟨[("PRD001", 5)], [], [], [], []⟩ : DBState)
        "PUR002" "SUP001" "PRD001" 10 25).1 "PUR002").2.1 = true ∧
    getStock (mark_as_received (usp_CreatePurchaseOrder
        (⟨[("PRD001", 5)], [], [], [], []⟩ : DBState)
        "PUR002" "SUP001" "PRD001" 10 25).1 "PUR002").1 "PRD001" = 5 + 10 := by
  have hnn : stockNonneg (⟨[("PRD001", 5)], [], [], [], []⟩ : DBState) := by
    intro c
    by_cases h : ("PRD001" : String) = c <;>
      simp [getStock, lookupStock, h]
  have H := C6_purchase_pending_amended
    (⟨[("PRD001", 5)], [], [], [], []⟩ : DBState)
    "PUR002" "SUP001" "PRD001" 10 25 rfl (by simp) (by decide) hnn
  refine ⟨H.1, H.2.1, H.2.2.2.1, ?_⟩
  have h5 : getStock (⟨[("PRD001", 5)], [], [], [], []⟩ : DBState) "PRD001"
      = 5 := by decide
  have := H.2.2.2.2 "PRD001"
  rw [if_pos rfl, h5] at this
  exact this

/-- C7: once a purchase has been received, `cancel` always fails (with the
invalid-transition failure message, state unchanged) and a second
`receive` always fails; and once cancelled, both `receive` and `cancel`
fail — `Received` and `Cancelled` are terminal. -/
theorem C7_lifecycle_terminal :
    (∀ (st st' : DBState) (pno msg : String),
        mark_as_received st pno = (st', true, msg) →
        cancel_purchase st' pno
            = (st', false, "Purchase not found or cannot be cancelled") ∧
        mark_as_received st' pno
            = (st', false, "Purchase not found or already received")) ∧
    (∀ (st st' : DBState) (pno msg : String),
        cancel_purchase st pno = (st', true, msg) →
        mark_as_received st' pno
            = (st', false, "Purchase not found or already received") ∧
        cancel_purchase st' pno
            = (st', false, "Purchase not found or cannot be cancelled")) := by
  constructor
  · intro st st' pno msg h
    have husp : usp_MarkPurchaseReceived st pno = (st', true) := by
      unfold mark_as_received at h
      split at h
      case h_1 st1 heq =>
        simp only [Prod.mk.injEq] at h
        rw [h.1] at heq
        exact heq
      case h_2 st1 heq => simp at h
    have hafter := findPurchase_after_receive husp
    rcases hf : findPurchase st.purchases pno with _ | hd
    · rw [receive_fails_of_missing hf] at husp
      simp at husp
    · rw [hf] at hafter
      have hafter' : findPurchase st'.purchases pno
          = some { hd with status := PurchStatus.received } := by
        simpa using hafter
      have hns : ¬ (({ hd with status := PurchStatus.received } :
          PurchaseHeader).status = PurchStatus.pending) := by simp
      constructor
      · simp [cancel_purchase, cancel_fails_of_not_pending hafter' hns]
      · simp [mark_as_received, receive_fails_of_not_pending hafter' hns]
  · intro st st' pno msg h
    have husp : usp_CancelPurchase st pno = (st', true) := by
      unfold cancel_purchase at h
      split at h
      case h_1 st1 heq =>
        simp only [Prod.mk.injEq] at h
        rw [h.1] at heq
        exact heq
      case h_2 st1 heq => simp at h
    have hafter := findPurchase_after_cancel husp
    constructor
    · simp [mark_as_received, receive_fails_of_missing hafter]
    · simp [cancel_purchase, cancel_fails_of_missing hafter]

set_option maxRecDepth 8000 in
/-- Concrete run of `C7_lifecycle_terminal`: receiving the pending purchase
`PUR002` succeeds (stock 0 → 2, status `Received`); afterwards `cancel`
and a second `receive` both fail without changing the state. -/
theorem C7_lifecycle_terminal_witness :
    mark_as_received
        (⟨[("PRD001", 0)], [], [],
          [⟨"PUR002", "SUP001", PurchStatus.pending, 50⟩],
          [⟨"PUR002", "PRD001", 2, 25⟩]⟩ : DBState) "PUR002"
      = (⟨[("PRD001", 2)], [], [],
          [⟨"PUR002", "SUP001", PurchStatus.received, 50⟩],
          [⟨"PUR002", "PRD001", 2, 25⟩]⟩,
         true, "Purchase marked as received. Inventory updated.") ∧
    cancel_purchase
        (⟨[("PRD001", 2)], [], [],
          [⟨"PUR002", "SUP001", PurchStatus.received, 50⟩],
          [⟨"PUR002", "PRD001", 2, 25⟩]⟩ : DBState) "PUR002"
      = (⟨[("PRD001", 2)], [], [],
          [⟨"PUR002", "SUP001", PurchStatus.received, 50⟩],
          [⟨"PUR002", "PRD001", 2, 25⟩]⟩,
         false, "Purchase not found or cannot be cancelled") ∧
    mark_as_received
        (⟨[("PRD001", 2)], [], [],
          [⟨"PUR002", "SUP001", PurchStatus.received, 50⟩],
          [⟨"PUR002", "PRD001", 2, 25⟩]⟩ : DBState) "PUR002"
      = (⟨[("PRD001", 2)], [], [],
          [⟨"PUR002", "SUP001", PurchStatus.received, 50⟩],
          [⟨"PUR002", "PRD001", 2, 25⟩]⟩,
         false, "Purchase not found or already received") := by
  have h := C7_lifecycle_terminal.1
    (⟨[("PRD001", 0)], [], [],
      [⟨"PUR002", "SUP001", PurchStatus.pending, 50⟩],
      [⟨"PUR002", "PRD001", 2, 25⟩]⟩ : DBState)
    (⟨[("PRD001", 2)], [], [],
      [⟨"PUR002", "SUP001", PurchStatus.received, 50⟩],
      [⟨"PUR002", "PRD001", 2, 25⟩]⟩ : DBState)
    "PUR002" "Purchase marked as received. Inventory updated." rfl
  exact ⟨rfl, h.1, h.2⟩

set_option maxRecDepth 40000 in
/-- C9 counterexample: two `call_create_sale` calls differing only in a
detail quantity send different statement text — the values are formatted
into the SQL, refuting "the SQL statement text sent to the store is
independent of the detail values … all values are passed as bound
parameters". -/
theorem C9_sql_text_counterexample :
    ¬ (call_create_sale_sqlText "INV001" "C000" "EMP001" 0 [⟨"PRD001", 1, 2⟩]
        = call_create_sale_sqlText "INV001" "C000" "EMP001" 0
            [⟨"PRD001", 3, 2⟩]) := by
  decide

set_option maxRecDepth 40000 in
/-- C9 (amended): in `call_create_purchase` the header values are bound as
`?` parameters, so its statement text is independent of them; but in both
helpers the detail values are formatted into the statement text (two calls
differing only in a detail quantity send different text), and
`call_create_sale` formats the header values into the text as well. -/
theorem C9_sql_parameterization_amended (pno1 pno2 sid1 sid2 : String)
    (n1 n2 : Option String) (details : List DetailRow) :
    (call_create_purchase_sql pno1 sid1 n1 details).text
      = (call_create_purchase_sql pno2 sid2 n2 details).text ∧
    (call_create_purchase_sql pno1 sid1 n1 details).boundParams
      = [pno1, sid1, n1.getD "NULL"] ∧
    ¬ ((call_create_purchase_sql "PUR001" "SUP001" none [⟨"PRD001", 1, 2⟩]).text
        = (call_create_purchase_sql "PUR001" "SUP001" none
            [⟨"PRD001", 3, 2⟩]).text) ∧
    ¬ (call_create_sale_sqlText "INV001" "C000" "EMP001" 0 []
        = call_create_sale_sqlText "INV002" "C000" "EMP001" 0 []) :=
  ⟨rfl, rfl, by decide, by decide⟩

/-- C10 counterexample: `update_stock` reads the current stock level
outside its `try` block, so a store failure during that read propagates as
an exception to the caller instead of returning `False` — refuting
"adjust_stock and update_stock catch every exception and return False". -/
theorem C10_exception_counterexample :
    update_stock_env envReadDown 5 = Except.error "db down" := rfl

/-- C10 (amended): `adjust_stock`, `mark_as_received` and `cancel_purchase`
never propagate an exception (their whole bodies are wrapped in
`try/except`); `update_stock` rejects a negative target without store
access and catches exceptions of the adjustment call, but an exception
raised by its initial stock-level read propagates to the caller — it never
propagates only when that read does not raise. -/
theorem C10_no_exception_amended :
    (∀ env : DbEnv, ∃ b, adjust_stock_env env = Except.ok b) ∧
    (∀ env : DbEnv, ∃ r, mark_as_received_env env = Except.ok r) ∧
    (∀ env : DbEnv, ∃ r, cancel_purchase_env env = Except.ok r) ∧
    (∀ (env : DbEnv) (n : Int), n < 0 →
        update_stock_env env n = Except.ok false) ∧
    (∀ (env : DbEnv) (n : Int), env.readConnect = Except.ok () →
        (∀ e, ¬ (env.readRows = Except.error e)) →
        ∃ b, update_stock_env env n = Except.ok b) := by
  refine ⟨?_, ?_, ?_, ?_, ?_⟩
  · intro env
    unfold adjust_stock_env
    rcases call_procedure_noout env.adjConnect env.adjExec with e | b
    · exact ⟨false, rfl⟩
    · exact ⟨b, rfl⟩
  · intro env
    unfold mark_as_received_env
    rcases call_procedure_noout env.recvConnect env.recvExec with e | b
    · by_cases h1 : strContainsLower e "not found" = true
      · exact ⟨(false, "Purchase not found"), by simp [h1]⟩
      · by_cases h2 : strContainsLower e "already" = true
        · exact ⟨(false, "Purchase already marked as received"),
            by simp [h1, h2]⟩
        · exact ⟨(false, "Error: " ++ e), by simp [h1, h2]⟩
    · cases b
      · exact ⟨_, rfl⟩
      · exact ⟨_, rfl⟩
  · intro env
    unfold cancel_purchase_env
    rcases call_procedure_noout env.cancConnect env.cancExec with e | b
    · by_cases h1 : strContainsLower e "received" = true
      · exact ⟨(false, "Cannot cancel a received purchase"), by simp [h1]⟩
      · exact ⟨(false, "Error: " ++ e), by simp [h1]⟩
    · cases b
      · exact ⟨_, rfl⟩
      · exact ⟨_, rfl⟩
  · intro env n h
    unfold update_stock_env
    rw [if_pos h]
  · intro env n hc hr
    unfold update_stock_env
    by_cases hn : n < 0
    · exact ⟨false, by rw [if_pos hn]⟩
    · rw [if_neg hn]
      unfold get_stock_level_env call_procedure_rows
      rw [hc]
      rcases hrow : env.readRows with e | r
      · exact absurd hrow (hr e)
      · rcases hcall : call_procedure_noout env.adjConnect env.adjExec
          with e | b
        · exact ⟨false, by cases r <;> rfl⟩
        · exact ⟨b, by cases r <;> rfl⟩

/-- Concrete run of `C10_no_exception_amended` on the all-ok environment
and on a negative target level. -/
theorem C10_no_exception_amended_witness :
    (∃ b, adjust_stock_env envAllOk = Except.ok b) ∧
    (∃ r, mark_as_received_env envAllOk = Except.ok r) ∧
    (∃ r, cancel_purchase_env envAllOk = Except.ok r) ∧
    update_stock_env envAllOk (-1) = Except.ok false ∧
    (∃ b, update_stock_env envAllOk 7 = Except.ok b) :=
  ⟨C10_no_exception_amended.1 envAllOk,
   C10_no_exception_amended.2.1 envAllOk,
   C10_no_exception_amended.2.2.1 envAllOk,
   C10_no_exception_amended.2.2.2.1 envAllOk (-1) (by decide),
   C10_no_exception_amended.2.2.2.2 envAllOk 7 rfl
     (fun e h => by simp [envAllOk] at h)⟩
